import Mathlib

/-!
Shallow embedding of the result-reducer functions of src/thrift/clients.py
(the AccessStats and PublicationStats thrift clients) and of the query body
built by documents_languages_by_year.

JSON values produced by json.loads are modelled by the inductive type
JValue.  Python dict indexing (which raises KeyError on a missing key and
TypeError on a non-dict), dict.get with a default, len() and list indexing
are modelled by Except-valued primitives, so that a reducer that would
raise in Python is an Except.error here.  The wall-clock year obtained from
date.today().year is an explicit parameter of each year-window reducer.
-/

namespace Clients

/-- JSON value as produced by json.loads: null, string, number, array or
object.  Numbers are modelled as rationals, which embed every JSON numeric
literal exactly. -/
inductive JValue : Type where
  | null
  | str (s : String)
  | num (q : ℚ)
  | arr (elems : List JValue)
  | obj (fields : List (String × JValue))

abbrev PyErr := String

/-- First-match lookup in the field list of a JSON object.  Python dict
keys are unique, so the first match is the match. -/
def lookupField (fields : List (String × JValue)) (k : String) : Option JValue :=
  match fields with
  | [] => none
  | (k', v) :: rest => if k' = k then some v else lookupField rest k

/-- Python d[k] on a dict: KeyError when the key is absent, TypeError when
the subscripted value is not a dict (the reducers only subscript with
string keys). -/
def pyIndex (v : JValue) (k : String) : Except PyErr JValue :=
  match v with
  | .obj fields =>
    match lookupField fields k with
    | some x => .ok x
    | none => .error ( "KeyError: " ++ k)
  | _ => .error "TypeError: object is not subscriptable"

/-- Python d.get(k, default): the stored value when the key is present, the
default otherwise; AttributeError when the receiver is not a dict. -/
def pyGetAttr (v : JValue) (k : String) (d : JValue) : Except PyErr JValue :=
  match v with
  | .obj fields => .ok ((lookupField fields k).getD d)
  | _ => .error "AttributeError: object has no attribute get"

/-- Elements of a JSON array, for the for-loops of the reducers.  The
backend bucket lists are JSON arrays; iteration over any other shape is
not modelled (Python would iterate dict keys or string characters and then
fail on the string subscripts the loop bodies apply). -/
def pyElems (v : JValue) : Except PyErr (List JValue) :=
  match v with
  | .arr elems => .ok elems
  | _ => .error "TypeError: object is not iterable"

/-- Python len() for the shapes that occur in responses. -/
def pyLen (v : JValue) : Except PyErr Nat :=
  match v with
  | .arr elems => .ok elems.length
  | .obj fields => .ok fields.length
  | .str s => .ok s.length
  | _ => .error "TypeError: object has no len"

/-- Python l[0]: the first element of a list, IndexError when empty. -/
def pyFirst (v : JValue) : Except PyErr JValue :=
  match v with
  | .arr (x :: _) => .ok x
  | .arr [] => .error "IndexError: list index out of range"
  | _ => .error "TypeError: object is not subscriptable"

/-- Python int() applied to a JSON number: truncation toward zero.  The
metric values int() is applied to are numbers in every backend response;
other operands are rejected. -/
def pyToInt (v : JValue) : Except PyErr Int :=
  match v with
  | .num q => .ok (q.num.tdiv (q.den : Int))
  | _ => .error "TypeError: int argument must be a number"

/-! ### The year window -/

/-- Keys str(i) for i in range(year, year - years, -1): the years most
recent calendar years, current year first, as decimal strings. -/
def windowKeys (year : Int) (years : Nat) : List String :=
  (List.range years).map (fun i => toString (year - (i : Nat)))

/-- The pre-populated window dict: every window key bound to the zero
value, in descending year order (CPython dicts preserve insertion order). -/
def windowInit (year : Int) (years : Nat) (z : α) : List (String × α) :=
  (windowKeys year years).map (fun k => (k, z))

/-- Python m[k] = v for a key that is already present: the binding keeps
its position, only the value changes.  The window keys are pairwise
distinct strings, so updating every matching binding coincides with the
dict update. -/
def updateA (m : List (String × α)) (k : String) (v : α) : List (String × α) :=
  m.map (fun p => if p.1 = k then (k, v) else p)

/-- Python k in m on a dict. -/
def hasKey (m : List (String × α)) (k : String) : Bool :=
  m.any (fun p => decide (p.1 = k))

/-- Shared shape of the three year-window loops of PublicationStats: for
each bucket, skip it unless its key is a pre-populated window key,
otherwise overwrite the window entry with a value computed from the
bucket.  Extracting the key of a malformed bucket raises, exactly as the
Python subscript does. -/
def pyFoldYears (getVal : JValue → Except PyErr α) (m : List (String × α)) :
    List JValue → Except PyErr (List (String × α))
  | [] => .ok m
  | b :: rest => do
    let k ← pyIndex b "key"
    match k with
    | .str s =>
      if hasKey m s then do
        let v ← getVal b
        pyFoldYears getVal (updateA m s v) rest
      else pyFoldYears getVal m rest
    | _ => pyFoldYears getVal m rest

/-! ### _compute_documents_languages_by_year -/

/-- The fresh langs dict of _compute_documents_languages_by_year. -/
def initLangs : List (String × ℚ) :=
  [ ("pt", 0), ("en", 0), ("es", 0), ("other", 0)]

/-- Python langs[k] += q for a key known to be present. -/
def addTo (m : List (String × ℚ)) (k : String) (q : ℚ) : List (String × ℚ) :=
  m.map (fun p => if p.1 = k then (p.1, p.2 + q) else p)

/-- Inner loop over item.languages.buckets: add doc_count to the slot
named by the bucket key when that key is a langs key, otherwise to the
other slot.  doc_count must be a number, as Python += would raise a
TypeError otherwise. -/
def foldLangRec (m : List (String × ℚ)) : List JValue → Except PyErr (List (String × ℚ))
  | [] => .ok m
  | lb :: rest => do
    let k ← pyIndex lb "key"
    let slot := match k with
      | .str s => if hasKey m s then s else "other"
      | _ => "other"
    let dc ← pyIndex lb "doc_count"
    match dc with
    | .num q => foldLangRec (addTo m slot q) rest
    | _ => .error "TypeError: unsupported operand type for iadd"

/-- query_result.aggregations.publication_year.buckets, each subscript
raising on absence as in Python. -/
def bucketsPath (r : JValue) : Except PyErr (List JValue) := do
  let aggs ← pyIndex r "aggregations"
  let py ← pyIndex aggs "publication_year"
  let bv ← pyIndex py "buckets"
  pyElems bv

/-- item.languages.buckets of one publication-year bucket. -/
def extractLangBuckets (b : JValue) : Except PyErr (List JValue) := do
  let lv ← pyIndex b "languages"
  let bv ← pyIndex lv "buckets"
  pyElems bv

/-- Value stored for an in-window bucket by the languages loop: the langs
record folded over the language buckets of the item. -/
def getValLangs (b : JValue) : Except PyErr (List (String × ℚ)) := do
  let lbs ← extractLangBuckets b
  foldLangRec initLangs lbs

/-- PublicationStats._compute_documents_languages_by_year.  Returns the
window dict, keyed by year string in descending year order, each value a
pt/en/es/other record. -/
def computeDocumentsLanguagesByYear (r : JValue) (year : Int) (years : Nat) :
    Except PyErr (List (String × List (String × ℚ))) := do
  let bs ← bucketsPath r
  pyFoldYears getValLangs (windowInit year years initLangs) bs

/-! ### _compute_number_of_articles_by_year and _compute_number_of_issues_by_year -/

/-- Result of the two count reducers: a bare scalar when years == 0, a
list of (year, count) pairs otherwise. -/
inductive CountResult : Type where
  | scalar (v : JValue)
  | series (entries : List (String × JValue))

/-- Value stored for an in-window bucket by the articles loop:
item.get(doc_count, 0). -/
def getValArticles (b : JValue) : Except PyErr JValue :=
  pyGetAttr b "doc_count" (.num 0)

/-- Value stored for an in-window bucket by the issues loop:
item.get(issue, empty dict).get(value, 0). -/
def getValIssues (b : JValue) : Except PyErr JValue := do
  let iv ← pyGetAttr b "issue" (.obj [])
  pyGetAttr iv "value" (.num 0)

/-- Python sorted(years.items(), reverse=True): a stable descending sort
of the pairs.  The window keys are pairwise distinct, so the tuple
comparison is decided by the key strings alone, compared by code points;
String data lists under the code point order model exactly that. -/
def pairDescRel (a b : String × JValue) : Prop := b.1.data ≤ a.1.data

instance : DecidableRel pairDescRel :=
  fun a b => inferInstanceAs (Decidable (b.1.data ≤ a.1.data))

instance : IsTotal (String × JValue) pairDescRel :=
  ⟨fun a b => (le_total a.1.data b.1.data).symm⟩

instance : IsTrans (String × JValue) pairDescRel :=
  ⟨fun _ _ _ hab hbc => le_trans hbc hab⟩

def sortPairsDesc (m : List (String × JValue)) : List (String × JValue) :=
  m.insertionSort pairDescRel

/-- PublicationStats._compute_number_of_articles_by_year. -/
def computeNumberOfArticlesByYear (r : JValue) (year : Int) (years : Nat) :
    Except PyErr CountResult :=
  if years = 0 then do
    let aggs ← pyIndex r "aggregations"
    let idv ← pyIndex aggs "id"
    let v ← pyIndex idv "value"
    .ok (.scalar v)
  else do
    let bs ← bucketsPath r
    let m ← pyFoldYears getValArticles (windowInit year years (.num 0)) bs
    .ok (.series (sortPairsDesc m))

/-- PublicationStats._compute_number_of_issues_by_year. -/
def computeNumberOfIssuesByYear (r : JValue) (year : Int) (years : Nat) :
    Except PyErr CountResult :=
  if years = 0 then do
    let aggs ← pyIndex r "aggregations"
    let iss ← pyIndex aggs "issue"
    let v ← pyIndex iss "value"
    .ok (.scalar v)
  else do
    let bs ← bucketsPath r
    let m ← pyFoldYears getValIssues (windowInit year years (.num 0)) bs
    .ok (.series (sortPairsDesc m))

/-! ### The document lookups -/

/-- query_result.get(hits, dict(hits? empty list)).get(hits, empty list):
the guarded extraction both lookup reducers test the length of. -/
def hitsPyGetList (r : JValue) : Except PyErr JValue := do
  let outer ← pyGetAttr r "hits" (.obj [ ("hits", .arr [])])
  pyGetAttr outer "hits" (.arr [])

/-- PublicationStats._compute_first_included_document_by_journal: None
(modelled as JValue.null, the json.loads image of None) when the hit list
is empty, the first hit source otherwise, None when the hit has no
_source. -/
def computeFirstIncludedDocumentByJournal (r : JValue) : Except PyErr JValue := do
  let l ← hitsPyGetList r
  let n ← pyLen l
  if n = 0 then .ok .null
  else do
    let hs ← pyIndex r "hits"
    let hl ← pyIndex hs "hits"
    let h ← pyFirst hl
    pyGetAttr h "_source" .null

/-- PublicationStats._compute_last_included_document_by_journal, whose
body is identical to the first-document reducer. -/
def computeLastIncludedDocumentByJournal (r : JValue) : Except PyErr JValue := do
  let l ← hitsPyGetList r
  let n ← pyLen l
  if n = 0 then .ok .null
  else do
    let hs ← pyIndex r "hits"
    let hl ← pyIndex hs "hits"
    let h ← pyFirst hl
    pyGetAttr h "_source" .null

/-! ### AccessStats._compute_access_lifetime -/

/-- One flattened data row: publication year key, access year key, and the
five int() converted sums html, abstract, pdf, epdf, total, in the order
the source appends them. -/
abbrev Row := String × String × Int × Int × Int × Int × Int

/-- Bucket keys entering rows are strings in every backend response; a
response with non-string keys would make the final Python 3 sorted() raise
on the mixed-type comparison, and is rejected at extraction here. -/
def asKeyStr (v : JValue) : Except PyErr String :=
  match v with
  | .str s => .ok s
  | _ => .error "TypeError: bucket key is not a string"

/-- bucket.name.value converted with int(). -/
def metricInt (b : JValue) (name : String) : Except PyErr Int := do
  let m ← pyIndex b name
  let v ← pyIndex m "value"
  pyToInt v

/-- Inner loop of _compute_access_lifetime over one publication-year
bucket: one row per access-year bucket, fields evaluated in source
order. -/
def rowsOfAccess (pb : JValue) : List JValue → Except PyErr (List Row)
  | [] => .ok []
  | ay :: rest => do
    let pkv ← pyIndex pb "key"
    let pk ← asKeyStr pkv
    let akv ← pyIndex ay "key"
    let ak ← asKeyStr akv
    let h ← metricInt ay "access_html"
    let ab ← metricInt ay "access_abstract"
    let pdf ← metricInt ay "access_pdf"
    let epdf ← metricInt ay "access_epdf"
    let tot ← metricInt ay "access_total"
    let more ← rowsOfAccess pb rest
    .ok ((pk, ak, h, ab, pdf, epdf, tot) :: more)

/-- Outer loop of _compute_access_lifetime over the publication-year
buckets, in response order. -/
def rowsOfPubs : List JValue → Except PyErr (List Row)
  | [] => .ok []
  | pb :: rest => do
    let ayv ← pyIndex pb "access_year"
    let bv ← pyIndex ayv "buckets"
    let ays ← pyElems bv
    let rows ← rowsOfAccess pb ays
    let more ← rowsOfPubs rest
    .ok (rows ++ more)

/-- The flattened, unsorted data list of _compute_access_lifetime. -/
def lifetimeRows (r : JValue) : Except PyErr (List Row) := do
  let pbs ← bucketsPath r
  rowsOfPubs pbs

/-- Lexicographic key of a row under the Python list comparison: strings
compare by code points, which is the order of their Char data lists. -/
abbrev RowKey :=
  Lex ((List Char) × Lex ((List Char) × Lex (Int × Lex (Int × Lex (Int × Lex (Int × Int))))))

def rowKey (a : Row) : RowKey :=
  toLex (a.1.data, toLex (a.2.1.data, toLex (a.2.2.1, toLex (a.2.2.2.1,
    toLex (a.2.2.2.2.1, toLex (a.2.2.2.2.2.1, a.2.2.2.2.2.2))))))

/-- Python row comparison: lexicographic over the seven components. -/
def rowle (a b : Row) : Prop := rowKey a ≤ rowKey b

instance : DecidableRel rowle :=
  fun a b => inferInstanceAs (Decidable (rowKey a ≤ rowKey b))

instance : IsTotal Row rowle := ⟨fun a b => le_total (rowKey a) (rowKey b)⟩

instance : IsTrans Row rowle := ⟨fun _ _ _ => le_trans⟩

/-- Python sorted(data): stable ascending sort under the row order. -/
def sortRows (l : List Row) : List Row := l.insertionSort rowle

/-- AccessStats._compute_access_lifetime. -/
def computeAccessLifetime (r : JValue) : Except PyErr (List Row) := do
  let rows ← lifetimeRows r
  .ok (sortRows rows)

/-! ### The query body of documents_languages_by_year -/

/-- The request body documents_languages_by_year serializes: filters on
issn and collection, a publication_year terms bucket of size years ordered
descending by term, and a nested unrestricted languages terms bucket. -/
def documentsLanguagesByYearBody (issn collection : String) (years : Nat) : JValue :=
  .obj [
    ( "query", .obj [ ( "filtered", .obj [ ( "query", .obj [ ( "bool", .obj [ ( "must", .arr [
        .obj [ ( "match", .obj [ ( "issn", .str issn)])],
        .obj [ ( "match", .obj [ ( "collection", .str collection)])]])])])])]),
    ( "aggs", .obj [ ( "publication_year", .obj [
        ( "terms", .obj [ ( "field", .str "publication_year"),
                          ( "size", .num (years : ℚ)),
                          ( "order", .obj [ ( "_term", .str "desc")])]),
        ( "aggs", .obj [ ( "languages", .obj [ ( "terms", .obj [
            ( "field", .str "languages"), ( "size", .num 0)])])])])])]

/-! ### Sanity checks of the embedding on concrete inputs -/

example :
    computeNumberOfArticlesByYear
      (.obj [ ( "aggregations", .obj [ ( "id", .obj [ ( "value", .num 42)])])]) 2026 0
      = .ok (.scalar (.num 42)) := rfl

example :
    computeNumberOfArticlesByYear
      (.obj [ ( "aggregations", .obj [ ( "publication_year", .obj [ ( "buckets", .arr
        [ .obj [ ( "key", .str "2026"), ( "doc_count", .num 7)]])])])]) 2026 2
      = .ok (.series [ ( "2026", .num 7), ( "2025", .num 0)]) := rfl

example :
    computeFirstIncludedDocumentByJournal (.obj []) = .ok .null := rfl

example :
    computeAccessLifetime
      (.obj [ ( "aggregations", .obj [ ( "publication_year", .obj [ ( "buckets", .arr
        [ .obj [ ( "key", .str "2020"),
                 ( "access_year", .obj [ ( "buckets", .arr
                   [ .obj [ ( "key", .str "2021"),
                            ( "access_html", .obj [ ( "value", .num 1)]),
                            ( "access_abstract", .obj [ ( "value", .num 2)]),
                            ( "access_pdf", .obj [ ( "value", .num 3)]),
                            ( "access_epdf", .obj [ ( "value", .num 4)]),
                            ( "access_total", .obj [ ( "value", .num 10)])]])])]])])])])
      = .ok [ ( "2020", "2021", 1, 2, 3, 4, 10)] := rfl

/-! ### Characterization machinery for the year-window folds -/

theorem ok_bind (a : α) (f : α → Except PyErr β) : (Except.ok a >>= f) = f a := rfl

theorem error_bind (e : PyErr) (f : α → Except PyErr β) :
    (Except.error e >>= f) = Except.error e := rfl

/-- Does the bucket have key field exactly the string k. -/
def keyIs (b : JValue) (k : String) : Bool :=
  match pyIndex b "key" with
  | .ok (.str s) => decide (s = k)
  | _ => false

/-- Value the year-window fold leaves for window key k: the getVal of the
last bucket whose key is k, or the initial value w when no bucket matches. -/
def refVal (getVal : JValue → Except PyErr α) : List JValue → String → α → α
  | [], _, w => w
  | b :: rest, k, w =>
    refVal getVal rest k (if keyIs b k then ((getVal b).toOption.getD w) else w)

theorem updateA_map_fst (m : List (String × α)) (k : String) (v : α) :
    (updateA m k v).map Prod.fst = m.map Prod.fst := by
  simp only [updateA, List.map_map]
  apply List.map_congr_left
  intro p _
  by_cases hp : p.1 = k
  · simp [Function.comp, hp]
  · simp [Function.comp, hp]

theorem pyFoldYears_ok (getVal : JValue → Except PyErr α) :
    ∀ (bs : List JValue) (m out : List (String × α)),
      pyFoldYears getVal m bs = .ok out →
      out = m.map (fun p => (p.1, refVal getVal bs p.1 p.2)) := by
  intro bs
  induction bs with
  | nil =>
    intro m out h
    simp only [pyFoldYears, Except.ok.injEq] at h
    simp [refVal, ← h]
  | cons b rest ih =>
    intro m out h
    simp only [pyFoldYears] at h
    cases hk : pyIndex b "key" with
    | error e => rw [hk, error_bind] at h; exact absurd h (by simp)
    | ok kv =>
      rw [hk, ok_bind] at h
      have hrefl : ∀ p : String × α,
          refVal getVal (b :: rest) p.1 p.2
            = refVal getVal rest p.1 (if keyIs b p.1 then ((getVal b).toOption.getD p.2) else p.2) := by
        intro p; rfl
      cases kv with
      | str s =>
        have h2 : (if hasKey m s = true then do
              let v ← getVal b
              pyFoldYears getVal (updateA m s v) rest
            else pyFoldYears getVal m rest) = Except.ok out := h
        by_cases hmem : hasKey m s
        · rw [if_pos hmem] at h2
          cases hv : getVal b with
          | error e => rw [hv, error_bind] at h2; exact absurd h2 (by simp)
          | ok v =>
            rw [hv, ok_bind] at h2
            have := ih (updateA m s v) out h2
            rw [this]
            simp only [updateA, List.map_map]
            apply List.map_congr_left
            intro p _
            by_cases hp : p.1 = s
            · have hkeyIs : keyIs b s = true := by simp [keyIs, hk]
              simp [Function.comp, hp, refVal, hkeyIs, hv, Except.toOption]
            · have hps : s ≠ p.1 := fun hc => hp hc.symm
              have hkeyIs : keyIs b p.1 = false := by simp [keyIs, hk, hps]
              simp [Function.comp, hp, refVal, hkeyIs]
        · rw [if_neg hmem] at h2
          have := ih m out h2
          rw [this]
          apply List.map_congr_left
          intro p hp
          have hpne : p.1 ≠ s := by
            intro hc
            apply hmem
            simp only [hasKey, List.any_eq_true]
            exact ⟨p, hp, by simp [hc]⟩
          have hps : ¬(s = p.1) := fun hc => hpne hc.symm
          simp only [hrefl, keyIs, hk]
          simp [hps]
      | null =>
        have := ih m out h
        rw [this]
        apply List.map_congr_left
        intro p _
        simp [hrefl, keyIs, hk]
      | num q =>
        have := ih m out h
        rw [this]
        apply List.map_congr_left
        intro p _
        simp [hrefl, keyIs, hk]
      | arr xs =>
        have := ih m out h
        rw [this]
        apply List.map_congr_left
        intro p _
        simp [hrefl, keyIs, hk]
      | obj fs =>
        have := ih m out h
        rw [this]
        apply List.map_congr_left
        intro p _
        simp [hrefl, keyIs, hk]

theorem refVal_of_no_match (getVal : JValue → Except PyErr α) :
    ∀ (bs : List JValue) (k : String) (w : α),
      (∀ b ∈ bs, keyIs b k = false) → refVal getVal bs k w = w := by
  intro bs
  induction bs with
  | nil => intro k w _; rfl
  | cons b rest ih =>
    intro k w h
    have hb := h b (by simp)
    have hstep : refVal getVal (b :: rest) k w = refVal getVal rest k w := by
      simp [refVal, hb]
    rw [hstep]
    exact ih k w (fun b' hb' => h b' (by simp [hb']))

theorem refVal_append (getVal : JValue → Except PyErr α) :
    ∀ (l₁ l₂ : List JValue) (k : String) (w : α),
      refVal getVal (l₁ ++ l₂) k w = refVal getVal l₂ k (refVal getVal l₁ k w) := by
  intro l₁
  induction l₁ with
  | nil => intro l₂ k w; rfl
  | cons b rest ih =>
    intro l₂ k w
    simp only [List.cons_append, refVal]
    exact ih l₂ k _

theorem refVal_last_match (getVal : JValue → Except PyErr α)
    (l₁ l₂ : List JValue) (b : JValue) (k : String) (w v : α)
    (hb : keyIs b k = true) (hv : getVal b = .ok v)
    (hl₂ : ∀ b' ∈ l₂, keyIs b' k = false) :
    refVal getVal (l₁ ++ b :: l₂) k w = v := by
  rw [refVal_append]
  simp only [refVal, hb, if_pos rfl, hv]
  exact refVal_of_no_match getVal l₂ k _ hl₂

theorem windowInit_map (year : Int) (years : Nat) (z : α)
    (f : String × α → β) :
    (windowInit year years z).map f = (windowKeys year years).map (fun k => f (k, z)) := by
  simp [windowInit, List.map_map, Function.comp]

theorem windowKeys_length (year : Int) (years : Nat) :
    (windowKeys year years).length = years := by
  rw [windowKeys, List.length_map, List.length_range]

/-! ### Characterizations of the three year-window reducers -/

theorem computeDocumentsLanguagesByYear_ok {r : JValue} {year : Int} {years : Nat}
    {bs : List JValue} {out : List (String × List (String × ℚ))}
    (hbs : bucketsPath r = .ok bs)
    (h : computeDocumentsLanguagesByYear r year years = .ok out) :
    out = (windowKeys year years).map
      (fun k => (k, refVal getValLangs bs k initLangs)) := by
  unfold computeDocumentsLanguagesByYear at h
  rw [hbs, ok_bind] at h
  rw [pyFoldYears_ok getValLangs bs _ out h, windowInit_map]

theorem computeNumberOfArticlesByYear_ok {r : JValue} {year : Int} {years : Nat}
    {bs : List JValue} {out : List (String × JValue)}
    (hyears : years ≠ 0)
    (hbs : bucketsPath r = .ok bs)
    (h : computeNumberOfArticlesByYear r year years = .ok (.series out)) :
    out = sortPairsDesc ((windowKeys year years).map
      (fun k => (k, refVal getValArticles bs k (.num 0)))) := by
  unfold computeNumberOfArticlesByYear at h
  rw [if_neg hyears, hbs, ok_bind] at h
  cases hm : pyFoldYears getValArticles (windowInit year years (.num 0)) bs with
  | error e => rw [hm, error_bind] at h; exact absurd h (by simp)
  | ok m =>
    rw [hm, ok_bind] at h
    have hout : sortPairsDesc m = out := by
      have := h
      simp only [Except.ok.injEq, CountResult.series.injEq] at this
      exact this
    rw [← hout, pyFoldYears_ok getValArticles bs _ m hm, windowInit_map]

theorem computeNumberOfIssuesByYear_ok {r : JValue} {year : Int} {years : Nat}
    {bs : List JValue} {out : List (String × JValue)}
    (hyears : years ≠ 0)
    (hbs : bucketsPath r = .ok bs)
    (h : computeNumberOfIssuesByYear r year years = .ok (.series out)) :
    out = sortPairsDesc ((windowKeys year years).map
      (fun k => (k, refVal getValIssues bs k (.num 0)))) := by
  unfold computeNumberOfIssuesByYear at h
  rw [if_neg hyears, hbs, ok_bind] at h
  cases hm : pyFoldYears getValIssues (windowInit year years (.num 0)) bs with
  | error e => rw [hm, error_bind] at h; exact absurd h (by simp)
  | ok m =>
    rw [hm, ok_bind] at h
    have hout : sortPairsDesc m = out := by
      have := h
      simp only [Except.ok.injEq, CountResult.series.injEq] at this
      exact this
    rw [← hout, pyFoldYears_ok getValIssues bs _ m hm, windowInit_map]

/-! ### Sortedness transfer for the descending pair sort -/

theorem sortPairsDesc_eq_self {m : List (String × JValue)}
    (h : List.Pairwise (fun a b : String × JValue => b.1.data < a.1.data) m) :
    sortPairsDesc m = m :=
  List.Sorted.insertionSort_eq (h.imp le_of_lt)

theorem pairwise_keys_of_map {m : List (String × JValue)} {ks : List String}
    (hm : m.map Prod.fst = ks)
    (h : List.Pairwise (fun a b : String => b.data < a.data) ks) :
    List.Pairwise (fun a b : String × JValue => b.1.data < a.1.data) m := by
  subst hm
  exact List.pairwise_map.mp h

/-! ### Characterization of the language record fold -/

/-- Slot a language bucket is accumulated into: its key when that key is a
string and one of the four langs keys, the other slot for every other key. -/
def slotOf (lb : JValue) : String :=
  match pyIndex lb "key" with
  | .ok (.str s) => if hasKey initLangs s then s else "other"
  | _ => "other"

/-- doc_count of a language bucket, as the number the fold adds. -/
def dcOf (lb : JValue) : ℚ :=
  match pyIndex lb "doc_count" with
  | .ok (.num q) => q
  | _ => 0

/-- Total doc_count accumulated into slot k over a language bucket list. -/
def sumSlot (k : String) (lbs : List JValue) : ℚ :=
  ((lbs.filter (fun lb => decide (slotOf lb = k))).map dcOf).sum

theorem sumSlot_cons (k : String) (lb : JValue) (rest : List JValue) :
    sumSlot k (lb :: rest) = (if slotOf lb = k then dcOf lb else 0) + sumSlot k rest := by
  by_cases h : slotOf lb = k
  · simp [sumSlot, List.filter_cons, h]
  · simp [sumSlot, List.filter_cons, h]

theorem addTo_pt (a b c d q : ℚ) :
    addTo [ ("pt", a), ("en", b), ("es", c), ("other", d)] "pt" q
      = [ ("pt", a + q), ("en", b), ("es", c), ("other", d)] := rfl

theorem addTo_en (a b c d q : ℚ) :
    addTo [ ("pt", a), ("en", b), ("es", c), ("other", d)] "en" q
      = [ ("pt", a), ("en", b + q), ("es", c), ("other", d)] := rfl

theorem addTo_es (a b c d q : ℚ) :
    addTo [ ("pt", a), ("en", b), ("es", c), ("other", d)] "es" q
      = [ ("pt", a), ("en", b), ("es", c + q), ("other", d)] := rfl

theorem addTo_other (a b c d q : ℚ) :
    addTo [ ("pt", a), ("en", b), ("es", c), ("other", d)] "other" q
      = [ ("pt", a), ("en", b), ("es", c), ("other", d + q)] := rfl

theorem slotOf_of_key {lb : JValue} {s : String} (hk : pyIndex lb "key" = .ok (.str s)) :
    slotOf lb = if hasKey initLangs s then s else "other" := by
  simp [slotOf, hk]

theorem hasKey_abcd (a b c d : ℚ) (s : String) :
    hasKey [ ("pt", a), ("en", b), ("es", c), ("other", d)] s = hasKey initLangs s := by
  simp [hasKey, initLangs]

theorem hasKey_initLangs_cases {s : String} (h : hasKey initLangs s = true) :
    s = "pt" ∨ s = "en" ∨ s = "es" ∨ s = "other" := by
  simp only [hasKey, initLangs, List.any_eq_true] at h
  rcases h with ⟨p, hp, hps⟩
  simp only [decide_eq_true_eq] at hps
  subst hps
  simp only [List.mem_cons, List.not_mem_nil, or_false] at hp
  rcases hp with h1 | h1 | h1 | h1
  · exact Or.inl (by rw [h1])
  · exact Or.inr (Or.inl (by rw [h1]))
  · exact Or.inr (Or.inr (Or.inl (by rw [h1])))
  · exact Or.inr (Or.inr (Or.inr (by rw [h1])))

theorem foldLangRec_ok :
    ∀ (lbs : List JValue) (a b c d : ℚ) (out : List (String × ℚ)),
      foldLangRec [ ("pt", a), ("en", b), ("es", c), ("other", d)] lbs = .ok out →
      out = [ ("pt", a + sumSlot "pt" lbs), ("en", b + sumSlot "en" lbs),
              ("es", c + sumSlot "es" lbs), ("other", d + sumSlot "other" lbs)] := by
  intro lbs
  induction lbs with
  | nil =>
    intro a b c d out h
    simp only [foldLangRec, Except.ok.injEq] at h
    simp [← h, sumSlot]
  | cons lb rest ih =>
    intro a b c d out h
    simp only [foldLangRec] at h
    cases hk : pyIndex lb "key" with
    | error e => rw [hk, error_bind] at h; exact absurd h (by simp)
    | ok kv =>
      rw [hk, ok_bind] at h
      cases hd : pyIndex lb "doc_count" with
      | error e => rw [hd, error_bind] at h; exact absurd h (by simp)
      | ok dv =>
        rw [hd, ok_bind] at h
        cases dv with
        | num q =>
          have hdc : dcOf lb = q := by simp [dcOf, hd]
          cases kv with
          | str s =>
            by_cases hmem : hasKey initLangs s
            · rcases hasKey_initLangs_cases hmem with rfl | rfl | rfl | rfl
              · have h2 : foldLangRec [ ("pt", a + q), ("en", b), ("es", c), ("other", d)]
                    rest = Except.ok out := by
                  rw [← addTo_pt]
                  simpa [hasKey_abcd, hmem] using h
                have hslot : slotOf lb = "pt" := by rw [slotOf_of_key hk]; rfl
                rw [ih _ _ _ _ out h2]
                simp [sumSlot_cons, hslot, hdc, add_assoc]
              · have h2 : foldLangRec [ ("pt", a), ("en", b + q), ("es", c), ("other", d)]
                    rest = Except.ok out := by
                  rw [← addTo_en]
                  simpa [hasKey_abcd, hmem] using h
                have hslot : slotOf lb = "en" := by rw [slotOf_of_key hk]; rfl
                rw [ih _ _ _ _ out h2]
                simp [sumSlot_cons, hslot, hdc, add_assoc]
              · have h2 : foldLangRec [ ("pt", a), ("en", b), ("es", c + q), ("other", d)]
                    rest = Except.ok out := by
                  rw [← addTo_es]
                  simpa [hasKey_abcd, hmem] using h
                have hslot : slotOf lb = "es" := by rw [slotOf_of_key hk]; rfl
                rw [ih _ _ _ _ out h2]
                simp [sumSlot_cons, hslot, hdc, add_assoc]
              · have h2 : foldLangRec [ ("pt", a), ("en", b), ("es", c), ("other", d + q)]
                    rest = Except.ok out := by
                  rw [← addTo_other]
                  simpa [hasKey_abcd, hmem] using h
                have hslot : slotOf lb = "other" := by rw [slotOf_of_key hk]; rfl
                rw [ih _ _ _ _ out h2]
                simp [sumSlot_cons, hslot, hdc, add_assoc]
            · have hmemf : hasKey initLangs s = false := by simpa using hmem
              have h2 : foldLangRec [ ("pt", a), ("en", b), ("es", c), ("other", d + q)]
                  rest = Except.ok out := by
                rw [← addTo_other]
                simpa [hasKey_abcd, hmemf] using h
              have hslot : slotOf lb = "other" := by
                rw [slotOf_of_key hk, hmemf]
                simp
              rw [ih _ _ _ _ out h2]
              simp [sumSlot_cons, hslot, hdc, add_assoc]
          | null =>
            have h2 : foldLangRec [ ("pt", a), ("en", b), ("es", c), ("other", d + q)]
                rest = Except.ok out := by rw [← addTo_other]; exact h
            have hslot : slotOf lb = "other" := by simp [slotOf, hk]
            rw [ih _ _ _ _ out h2]
            simp [sumSlot_cons, hslot, hdc, add_assoc]
          | num q2 =>
            have h2 : foldLangRec [ ("pt", a), ("en", b), ("es", c), ("other", d + q)]
                rest = Except.ok out := by rw [← addTo_other]; exact h
            have hslot : slotOf lb = "other" := by simp [slotOf, hk]
            rw [ih _ _ _ _ out h2]
            simp [sumSlot_cons, hslot, hdc, add_assoc]
          | arr xs =>
            have h2 : foldLangRec [ ("pt", a), ("en", b), ("es", c), ("other", d + q)]
                rest = Except.ok out := by rw [← addTo_other]; exact h
            have hslot : slotOf lb = "other" := by simp [slotOf, hk]
            rw [ih _ _ _ _ out h2]
            simp [sumSlot_cons, hslot, hdc, add_assoc]
          | obj fs =>
            have h2 : foldLangRec [ ("pt", a), ("en", b), ("es", c), ("other", d + q)]
                rest = Except.ok out := by rw [← addTo_other]; exact h
            have hslot : slotOf lb = "other" := by simp [slotOf, hk]
            rw [ih _ _ _ _ out h2]
            simp [sumSlot_cons, hslot, hdc, add_assoc]
        | null => exact absurd h (by simp)
        | str s2 => exact absurd h (by simp)
        | arr xs => exact absurd h (by simp)
        | obj fs => exact absurd h (by simp)

/-! ### The guarded hits extraction of the document lookups -/

theorem hitsPyGetList_no_hits {fs : List (String × JValue)}
    (h : lookupField fs "hits" = none) :
    hitsPyGetList (.obj fs) = .ok (.arr []) := by
  unfold hitsPyGetList
  simp [pyGetAttr, h, lookupField, ok_bind]

theorem hitsPyGetList_nonempty {r hd : JValue} {t : List JValue}
    (hl : hitsPyGetList r = .ok (.arr (hd :: t))) :
    ∃ fs gs, r = .obj fs ∧ lookupField fs "hits" = some (.obj gs) ∧
      lookupField gs "hits" = some (.arr (hd :: t)) := by
  unfold hitsPyGetList at hl
  cases r with
  | obj fs =>
    refine ⟨fs, ?_⟩
    rw [show pyGetAttr (.obj fs) "hits" (.obj [ ( "hits", .arr [])])
        = .ok ((lookupField fs "hits").getD (.obj [ ( "hits", .arr [])])) from rfl,
      ok_bind] at hl
    cases hf : lookupField fs "hits" with
    | none =>
      rw [hf] at hl
      simp [pyGetAttr, lookupField] at hl
    | some o =>
      rw [hf] at hl
      cases o with
      | obj gs =>
        refine ⟨gs, rfl, rfl, ?_⟩
        simp only [Option.getD_some] at hl
        cases hg : lookupField gs "hits" with
        | none => rw [pyGetAttr] at hl; simp [hg] at hl
        | some v =>
          rw [pyGetAttr] at hl
          simp only [hg, Option.getD_some, Except.ok.injEq] at hl
          simp [hg, hl]
      | null => simp [pyGetAttr] at hl
      | str s => simp [pyGetAttr] at hl
      | num q => simp [pyGetAttr] at hl
      | arr xs => simp [pyGetAttr] at hl
  | null => simp [pyGetAttr, error_bind] at hl
  | str s => simp [pyGetAttr, error_bind] at hl
  | num q => simp [pyGetAttr, error_bind] at hl
  | arr xs => simp [pyGetAttr, error_bind] at hl

theorem computeFirst_of_nonempty {r hd : JValue} {t : List JValue}
    (hl : hitsPyGetList r = .ok (.arr (hd :: t))) :
    computeFirstIncludedDocumentByJournal r = pyGetAttr hd "_source" .null := by
  obtain ⟨fs, gs, rfl, hf, hg⟩ := hitsPyGetList_nonempty hl
  unfold computeFirstIncludedDocumentByJournal
  rw [hl, ok_bind]
  simp [pyLen, pyIndex, hf, hg, pyFirst, ok_bind]

theorem computeLast_of_nonempty {r hd : JValue} {t : List JValue}
    (hl : hitsPyGetList r = .ok (.arr (hd :: t))) :
    computeLastIncludedDocumentByJournal r = pyGetAttr hd "_source" .null := by
  obtain ⟨fs, gs, rfl, hf, hg⟩ := hitsPyGetList_nonempty hl
  unfold computeLastIncludedDocumentByJournal
  rw [hl, ok_bind]
  simp [pyLen, pyIndex, hf, hg, pyFirst, ok_bind]

theorem computeFirst_of_empty {r : JValue}
    (hl : hitsPyGetList r = .ok (.arr [])) :
    computeFirstIncludedDocumentByJournal r = .ok .null := by
  unfold computeFirstIncludedDocumentByJournal
  rw [hl, ok_bind]
  simp [pyLen, ok_bind]

theorem computeLast_of_empty {r : JValue}
    (hl : hitsPyGetList r = .ok (.arr [])) :
    computeLastIncludedDocumentByJournal r = .ok .null := by
  unfold computeLastIncludedDocumentByJournal
  rw [hl, ok_bind]
  simp [pyLen, ok_bind]

/-! ### Order lemmas for the lifetime rows -/

/-- Claim-side key of a row for the sort order the spec talks about: the
(publication_year, access_year) pair under the lexicographic code point
order. -/
def pairKey (a : Row) : Lex ((List Char) × (List Char)) := toLex (a.1.data, a.2.1.data)

theorem sortRows_pairwise (l : List Row) : List.Pairwise rowle (sortRows l) :=
  List.sorted_insertionSort rowle l

theorem sortRows_perm (l : List Row) : (sortRows l).Perm l :=
  List.perm_insertionSort rowle l

theorem rowle_pairKey {a b : Row} (hle : rowle a b) (hne : pairKey a ≠ pairKey b) :
    pairKey a < pairKey b := by
  rcases (Prod.Lex.le_iff _ _).mp hle with h1 | ⟨h1, h2⟩
  · exact (Prod.Lex.lt_iff _ _).mpr (Or.inl h1)
  · rcases (Prod.Lex.le_iff _ _).mp h2 with h3 | ⟨h3, _⟩
    · exact (Prod.Lex.lt_iff _ _).mpr (Or.inr ⟨h1, h3⟩)
    · have e1 : a.1.data = b.1.data := h1
      have e3 : a.2.1.data = b.2.1.data := h3
      exact absurd (by simp only [pairKey, e1, e3]) hne

theorem sortRows_strict {rows : List Row}
    (hnd : (rows.map pairKey).Nodup) :
    List.Pairwise (fun a b : Row => pairKey a < pairKey b) (sortRows rows) := by
  have hperm : ((sortRows rows).map pairKey).Perm (rows.map pairKey) :=
    (sortRows_perm rows).map pairKey
  have hnd2 : ((sortRows rows).map pairKey).Nodup := (hperm.nodup_iff).mpr hnd
  have hne : List.Pairwise (fun a b : Row => pairKey a ≠ pairKey b) (sortRows rows) :=
    List.pairwise_map.mp hnd2
  exact ((sortRows_pairwise rows).and hne).imp (fun h => rowle_pairKey h.1 h.2)

/-! ### Concrete response fixtures -/

/-- Response whose publication_year bucket list is empty. -/
def rEmptyBuckets : JValue :=
  .obj [ ( "aggregations", .obj [ ( "publication_year", .obj [ ( "buckets", .arr [])])])]

/-- Bucket carrying both a doc_count and a nested id cardinality metric
with a different value. -/
def bucketTwoCounts : JValue :=
  .obj [ ( "key", .str "2026"), ( "doc_count", .num 7),
         ( "id", .obj [ ( "value", .num 3)])]

/-- Response whose single in-window bucket carries both counts. -/
def rTwoCounts : JValue :=
  .obj [ ( "aggregations", .obj [ ( "publication_year", .obj [ ( "buckets",
    .arr [bucketTwoCounts])])])]

/-- Response whose single in-window bucket has neither a doc_count nor an
issue metric. -/
def rMissingMetric : JValue :=
  .obj [ ( "aggregations", .obj [ ( "publication_year", .obj [ ( "buckets",
    .arr [ .obj [ ( "key", .str "2026")]])])])]

/-- Response carrying the two top-level cardinality metrics. -/
def rScalarMetrics : JValue :=
  .obj [ ( "aggregations", .obj [ ( "id", .obj [ ( "value", .num 42)]),
                                  ( "issue", .obj [ ( "value", .num 5)])])]

/-- Response with one hit that has no _source member. -/
def rNoSource : JValue :=
  .obj [ ( "hits", .obj [ ( "hits", .arr [ .obj [ ( "score", .num 1)]])])]

/-- Response with one hit carrying a source record. -/
def rWithSource : JValue :=
  .obj [ ( "hits", .obj [ ( "hits", .arr
    [ .obj [ ( "_source", .obj [ ( "code", .str "a1")])]])])]

/-! ### Claim C3 -/

theorem bucketsPath_no_aggs {fs : List (String × JValue)}
    (h : lookupField fs "aggregations" = none) :
    bucketsPath (.obj fs) = .error "KeyError: aggregations" := by
  unfold bucketsPath
  simp [pyIndex, h, error_bind]

/-- C3 counterexample: the claim says every reducer returns its
zero/absent-filled result instead of raising when an expected aggregation
key is missing, but _compute_access_lifetime applied to a response with no
aggregations member raises a KeyError (an error, not the empty list). -/
theorem claim3_counterexample :
    computeAccessLifetime (.obj []) = .error "KeyError: aggregations" ∧
    (Except.error "KeyError: aggregations" : Except PyErr (List Row)) ≠ .ok [] :=
  ⟨rfl, by simp⟩

/-- C3 (amended): the zero/absent fallbacks exist only at specific points.
The document-lookup reducers return the absent result for every response
with no hits member; the count reducers fill 0 for an in-window bucket
lacking its metric member; but a response with no aggregations member
makes all four aggregation reducers raise KeyError instead of returning a
zero-filled result. -/
theorem claim3_amended (fs gs : List (String × JValue)) (year : Int) (years : Nat)
    (hflat : lookupField fs "aggregations" = none)
    (hhits : lookupField gs "hits" = none) :
    computeAccessLifetime (.obj fs) = .error "KeyError: aggregations" ∧
    computeDocumentsLanguagesByYear (.obj fs) year years = .error "KeyError: aggregations" ∧
    computeNumberOfArticlesByYear (.obj fs) year years = .error "KeyError: aggregations" ∧
    computeNumberOfIssuesByYear (.obj fs) year years = .error "KeyError: aggregations" ∧
    computeFirstIncludedDocumentByJournal (.obj gs) = .ok .null ∧
    computeLastIncludedDocumentByJournal (.obj gs) = .ok .null ∧
    computeNumberOfArticlesByYear rMissingMetric 2026 1 = .ok (.series [ ( "2026", .num 0)]) ∧
    computeNumberOfIssuesByYear rMissingMetric 2026 1 = .ok (.series [ ( "2026", .num 0)]) := by
  have hb := bucketsPath_no_aggs hflat
  have hlr : lifetimeRows (.obj fs) = .error "KeyError: aggregations" := by
    unfold lifetimeRows
    rw [hb, error_bind]
  refine ⟨?_, ?_, ?_, ?_, ?_, ?_, rfl, rfl⟩
  · unfold computeAccessLifetime
    rw [hlr, error_bind]
  · unfold computeDocumentsLanguagesByYear
    rw [hb, error_bind]
  · by_cases hy : years = 0
    · unfold computeNumberOfArticlesByYear
      rw [if_pos hy]
      simp [pyIndex, hflat, error_bind]
    · unfold computeNumberOfArticlesByYear
      rw [if_neg hy, hb, error_bind]
  · by_cases hy : years = 0
    · unfold computeNumberOfIssuesByYear
      rw [if_pos hy]
      simp [pyIndex, hflat, error_bind]
    · unfold computeNumberOfIssuesByYear
      rw [if_neg hy, hb, error_bind]
  · exact computeFirst_of_empty (hitsPyGetList_no_hits hhits)
  · exact computeLast_of_empty (hitsPyGetList_no_hits hhits)

/-- C3 witness: the amended statement at the empty object and concrete
window parameters. -/
theorem claim3_amended_witness :
    computeAccessLifetime (.obj []) = .error "KeyError: aggregations" ∧
    computeDocumentsLanguagesByYear (.obj []) 2026 3 = .error "KeyError: aggregations" ∧
    computeNumberOfArticlesByYear (.obj []) 2026 3 = .error "KeyError: aggregations" ∧
    computeNumberOfIssuesByYear (.obj []) 2026 3 = .error "KeyError: aggregations" ∧
    computeFirstIncludedDocumentByJournal (.obj []) = .ok .null ∧
    computeLastIncludedDocumentByJournal (.obj []) = .ok .null ∧
    computeNumberOfArticlesByYear rMissingMetric 2026 1 = .ok (.series [ ( "2026", .num 0)]) ∧
    computeNumberOfIssuesByYear rMissingMetric 2026 1 = .ok (.series [ ( "2026", .num 0)]) :=
  claim3_amended [] [] 2026 3 rfl rfl

/-! ### Claim C4 -/

theorem chain3_ok {r : JValue} {k1 k2 k3 : String} {v : JValue}
    (h : (pyIndex r k1 >>= fun a => pyIndex a k2 >>= fun i => pyIndex i k3) = .ok v) :
    ∃ a i, pyIndex r k1 = .ok a ∧ pyIndex a k2 = .ok i ∧ pyIndex i k3 = .ok v := by
  cases ha : pyIndex r k1 with
  | error e => rw [ha, error_bind] at h; exact absurd h (by simp)
  | ok a =>
    rw [ha, ok_bind] at h
    cases hb : pyIndex a k2 with
    | error e => rw [hb, error_bind] at h; exact absurd h (by simp)
    | ok i =>
      rw [hb, ok_bind] at h
      exact ⟨a, i, rfl, hb, h⟩

/-- C4: with years = 0 the two count operations return the bare top-level
cardinality metric of the response (aggregations.id.value for articles,
aggregations.issue.value for issues) as a scalar, which is a different
constructor from every (year, count) series. -/
theorem claim4_scalar (r : JValue) (year : Int) (v w : JValue)
    (hid : (pyIndex r "aggregations" >>= fun a =>
      pyIndex a "id" >>= fun i => pyIndex i "value") = .ok v)
    (hiss : (pyIndex r "aggregations" >>= fun a =>
      pyIndex a "issue" >>= fun i => pyIndex i "value") = .ok w) :
    computeNumberOfArticlesByYear r year 0 = .ok (.scalar v) ∧
    computeNumberOfIssuesByYear r year 0 = .ok (.scalar w) ∧
    (∀ l, CountResult.scalar v ≠ CountResult.series l) ∧
    (∀ l, CountResult.scalar w ≠ CountResult.series l) := by
  obtain ⟨a, i, ha, hb, hc⟩ := chain3_ok hid
  obtain ⟨a2, i2, ha2, hb2, hc2⟩ := chain3_ok hiss
  refine ⟨?_, ?_, fun l h => CountResult.noConfusion h, fun l h => CountResult.noConfusion h⟩
  · unfold computeNumberOfArticlesByYear
    rw [if_pos rfl, ha, ok_bind, hb, ok_bind, hc, ok_bind]
  · unfold computeNumberOfIssuesByYear
    rw [if_pos rfl, ha2, ok_bind, hb2, ok_bind, hc2, ok_bind]

/-- C4 witness: the scalar results on a concrete response carrying both
cardinality metrics. -/
theorem claim4_scalar_witness :
    computeNumberOfArticlesByYear rScalarMetrics 2026 0 = .ok (.scalar (.num 42)) ∧
    computeNumberOfIssuesByYear rScalarMetrics 2026 0 = .ok (.scalar (.num 5)) ∧
    (∀ l, CountResult.scalar (.num 42) ≠ CountResult.series l) ∧
    (∀ l, CountResult.scalar (.num 5) ≠ CountResult.series l) :=
  claim4_scalar rScalarMetrics 2026 (.num 42) (.num 5) rfl rfl

/-! ### Claim C7 -/

/-- C7 counterexample: the claim says the absent outcome occurs if and
only if hits.hits is empty, but a response whose single hit has no _source
member also yields the absent outcome with a non-empty hit list. -/
theorem claim7_counterexample :
    computeFirstIncludedDocumentByJournal rNoSource = .ok .null ∧
    computeLastIncludedDocumentByJournal rNoSource = .ok .null ∧
    hitsPyGetList rNoSource = .ok (.arr [ .obj [ ( "score", .num 1)]]) ∧
    ([ (JValue.obj [ ( "score", .num 1)])] : List JValue) ≠ [] :=
  ⟨rfl, rfl, rfl, by simp⟩

/-- C7 (amended): the lookup reducers return the absent outcome (None,
i.e. null) when hits.hits is empty, and otherwise return the first hit
get(_source, None), which is the same absent outcome when the hit has no
_source member; the absent outcome is a distinct value from every record,
in particular from an empty record or a record of empty fields. -/
theorem claim7_amended (r : JValue) (hs : List JValue)
    (hl : hitsPyGetList r = .ok (.arr hs)) :
    (hs = [] → computeFirstIncludedDocumentByJournal r = .ok .null ∧
               computeLastIncludedDocumentByJournal r = .ok .null) ∧
    (∀ h t, hs = h :: t →
      computeFirstIncludedDocumentByJournal r = pyGetAttr h "_source" .null ∧
      computeLastIncludedDocumentByJournal r = pyGetAttr h "_source" .null) ∧
    JValue.null ≠ .obj [] ∧
    JValue.null ≠ .obj [ ( "title", .str "")] := by
  refine ⟨?_, ?_, fun h => JValue.noConfusion h, fun h => JValue.noConfusion h⟩
  · intro he
    subst he
    exact ⟨computeFirst_of_empty hl, computeLast_of_empty hl⟩
  · intro h t he
    subst he
    exact ⟨computeFirst_of_nonempty hl, computeLast_of_nonempty hl⟩

/-- C7 witness: the amended statement at a concrete response with one hit
carrying a source record. -/
theorem claim7_amended_witness :
    (([ (JValue.obj [ ( "_source", .obj [ ( "code", .str "a1")])])] : List JValue) = [] →
      computeFirstIncludedDocumentByJournal rWithSource = .ok .null ∧
      computeLastIncludedDocumentByJournal rWithSource = .ok .null) ∧
    (∀ h t, ([ (JValue.obj [ ( "_source", .obj [ ( "code", .str "a1")])])] : List JValue)
        = h :: t →
      computeFirstIncludedDocumentByJournal rWithSource = pyGetAttr h "_source" .null ∧
      computeLastIncludedDocumentByJournal rWithSource = pyGetAttr h "_source" .null) ∧
    JValue.null ≠ .obj [] ∧
    JValue.null ≠ .obj [ ( "title", .str "")] :=
  claim7_amended rWithSource [ (.obj [ ( "_source", .obj [ ( "code", .str "a1")])])] rfl

/-! ### Claim C8 -/

/-- C8: every reducer is a pure function of the response (and, for the
year-window reducers, of the wall-clock year): two runs on the same inputs
give the same output. -/
theorem claim8_determinism (r : JValue) (year : Int) (years : Nat) :
    computeAccessLifetime r = computeAccessLifetime r ∧
    computeDocumentsLanguagesByYear r year years
      = computeDocumentsLanguagesByYear r year years ∧
    computeNumberOfArticlesByYear r year years
      = computeNumberOfArticlesByYear r year years ∧
    computeNumberOfIssuesByYear r year years
      = computeNumberOfIssuesByYear r year years ∧
    computeFirstIncludedDocumentByJournal r = computeFirstIncludedDocumentByJournal r ∧
    computeLastIncludedDocumentByJournal r = computeLastIncludedDocumentByJournal r :=
  ⟨rfl, rfl, rfl, rfl, rfl, rfl⟩

/-! ### Claim C9 -/

/-- C9: with years = 0 the languages reducer always returns the empty
mapping when it returns at all, because the pre-populated window is empty
and every bucket is dropped; yet the query body it is applied to requests
bucket size 0, the backend convention for an unrestricted bucket count. -/
theorem claim9_empty_window :
    (∀ (r : JValue) (year : Int) (out : List (String × List (String × ℚ))),
      computeDocumentsLanguagesByYear r year 0 = .ok out → out = []) ∧
    (∀ issn collection : String,
      (pyIndex (documentsLanguagesByYearBody issn collection 0) "aggs" >>= fun a =>
        pyIndex a "publication_year" >>= fun p =>
        pyIndex p "terms" >>= fun t => pyIndex t "size") = .ok (.num 0)) := by
  constructor
  · intro r year out h
    unfold computeDocumentsLanguagesByYear at h
    cases hbs : bucketsPath r with
    | error e => rw [hbs, error_bind] at h; exact absurd h (by simp)
    | ok bs =>
      rw [hbs, ok_bind] at h
      have := pyFoldYears_ok getValLangs bs _ out h
      simpa [windowInit, windowKeys] using this
  · intro issn collection
    rfl

/-- C9 witness: the empty mapping on a concrete response that does carry a
year bucket, at years = 0. -/
theorem claim9_empty_window_witness :
    computeDocumentsLanguagesByYear rTwoCounts 2026 0 = .ok [] ∧
    ([] : List (String × List (String × ℚ))) = [] :=
  ⟨rfl, claim9_empty_window.1 rTwoCounts 2026 [] rfl⟩

/-! ### Claim C10 -/

/-- C10: a non-empty hit list whose first hit has no _source member gives
the same absent outcome as an empty hit list, for both lookup reducers. -/
theorem claim10_missing_source (r h : JValue) (t : List JValue)
    (fs : List (String × JValue))
    (hl : hitsPyGetList r = .ok (.arr (h :: t)))
    (hobj : h = .obj fs)
    (hns : lookupField fs "_source" = none) :
    computeFirstIncludedDocumentByJournal r = .ok .null ∧
    computeLastIncludedDocumentByJournal r = .ok .null ∧
    (∀ r2 : JValue, hitsPyGetList r2 = .ok (.arr []) →
      computeFirstIncludedDocumentByJournal r2 = .ok .null ∧
      computeLastIncludedDocumentByJournal r2 = .ok .null) := by
  subst hobj
  rw [computeFirst_of_nonempty hl, computeLast_of_nonempty hl]
  refine ⟨?_, ?_, fun r2 hr2 => ⟨computeFirst_of_empty hr2, computeLast_of_empty hr2⟩⟩
  · simp [pyGetAttr, hns]
  · simp [pyGetAttr, hns]

/-- C10 witness: the absent outcome on the concrete no-source response. -/
theorem claim10_missing_source_witness :
    computeFirstIncludedDocumentByJournal rNoSource = .ok .null ∧
    computeLastIncludedDocumentByJournal rNoSource = .ok .null ∧
    (∀ r2 : JValue, hitsPyGetList r2 = .ok (.arr []) →
      computeFirstIncludedDocumentByJournal r2 = .ok .null ∧
      computeLastIncludedDocumentByJournal r2 = .ok .null) :=
  claim10_missing_source rNoSource (.obj [ ( "score", .num 1)]) [] [ ( "score", .num 1)]
    rfl rfl rfl

/-! ### Claim C1 -/

/-- C1 counterexample: the claim promises the count series in descending
year order for every window size at the wall-clock anchor year, but the
series reducers sort the year keys as strings; at anchor year 1000 with
N = 2 (keys of different digit length) the articles series comes back with
999 before 1000, which is not descending year order. -/
theorem claim1_counterexample :
    computeNumberOfArticlesByYear rEmptyBuckets 1000 2
      = .ok (.series [ ( "999", .num 0), ( "1000", .num 0)]) ∧
    ([ "999", "1000"] : List String) ≠ [ "1000", "999"] :=
  ⟨rfl, by decide⟩

/-- C1 (amended): for years = N > 0 and any response the reducers succeed
on, all three reductions return exactly the N window entries keyed
str(year), ..., str(year - N + 1), and no other key: the languages mapping
always in window (descending year) order; the two count series always as
the descending lexicographic string sort of that same window map, hence
with exactly the window keys, in descending string order; window years
with no matching bucket keep the zero value.  Whenever the window keys are
pairwise descending as strings (true for every uniform-digit window, e.g.
any window inside 1000..9999) the series key order is exactly the
descending year order. -/
theorem claim1_amended (year : Int) (N : Nat) (r : JValue) (bs : List JValue)
    (outL : List (String × List (String × ℚ))) (outA outI : List (String × JValue))
    (hN : 0 < N)
    (hbs : bucketsPath r = .ok bs)
    (hL : computeDocumentsLanguagesByYear r year N = .ok outL)
    (hA : computeNumberOfArticlesByYear r year N = .ok (.series outA))
    (hI : computeNumberOfIssuesByYear r year N = .ok (.series outI)) :
    outL.map Prod.fst = windowKeys year N ∧
    (windowKeys year N).length = N ∧
    outA = sortPairsDesc ((windowKeys year N).map
      (fun k => (k, refVal getValArticles bs k (.num 0)))) ∧
    outI = sortPairsDesc ((windowKeys year N).map
      (fun k => (k, refVal getValIssues bs k (.num 0)))) ∧
    (outA.map Prod.fst).Perm (windowKeys year N) ∧
    (outI.map Prod.fst).Perm (windowKeys year N) ∧
    List.Pairwise pairDescRel outA ∧
    List.Pairwise pairDescRel outI ∧
    (∀ k, k ∈ windowKeys year N → (∀ b ∈ bs, keyIs b k = false) →
      ((k, initLangs) ∈ outL ∧ (k, JValue.num 0) ∈ outA ∧ (k, JValue.num 0) ∈ outI)) ∧
    (List.Pairwise (fun a b : String => b.data < a.data) (windowKeys year N) →
      outA.map Prod.fst = windowKeys year N ∧ outI.map Prod.fst = windowKeys year N) := by
  have hLc := computeDocumentsLanguagesByYear_ok hbs hL
  have hAc := computeNumberOfArticlesByYear_ok hN.ne' hbs hA
  have hIc := computeNumberOfIssuesByYear_ok hN.ne' hbs hI
  have hmfA : ((windowKeys year N).map
      (fun k => (k, refVal getValArticles bs k (JValue.num 0)))).map Prod.fst
      = windowKeys year N := by
    rw [List.map_map]
    exact List.map_id _
  have hmfI : ((windowKeys year N).map
      (fun k => (k, refVal getValIssues bs k (JValue.num 0)))).map Prod.fst
      = windowKeys year N := by
    rw [List.map_map]
    exact List.map_id _
  have hpermA0 := List.perm_insertionSort pairDescRel
    ((windowKeys year N).map (fun k => (k, refVal getValArticles bs k (JValue.num 0))))
  have hpermI0 := List.perm_insertionSort pairDescRel
    ((windowKeys year N).map (fun k => (k, refVal getValIssues bs k (JValue.num 0))))
  have hpermA := hpermA0.map Prod.fst
  have hpermI := hpermI0.map Prod.fst
  rw [hmfA] at hpermA
  rw [hmfI] at hpermI
  refine ⟨?_, windowKeys_length year N, hAc, hIc, ?_, ?_, ?_, ?_, ?_, ?_⟩
  · rw [hLc, List.map_map]
    exact List.map_id _
  · rw [hAc]; exact hpermA
  · rw [hIc]; exact hpermI
  · rw [hAc]
    exact List.sorted_insertionSort pairDescRel _
  · rw [hIc]
    exact List.sorted_insertionSort pairDescRel _
  · intro k hk hnone
    refine ⟨?_, ?_, ?_⟩
    · rw [hLc]
      exact List.mem_map.mpr
        ⟨k, hk, by rw [refVal_of_no_match getValLangs bs k initLangs hnone]⟩
    · rw [hAc]
      exact hpermA0.mem_iff.mpr (List.mem_map.mpr
        ⟨k, hk, by rw [refVal_of_no_match getValArticles bs k (JValue.num 0) hnone]⟩)
    · rw [hIc]
      exact hpermI0.mem_iff.mpr (List.mem_map.mpr
        ⟨k, hk, by rw [refVal_of_no_match getValIssues bs k (JValue.num 0) hnone]⟩)
  · intro hsorted
    constructor
    · rw [hAc, sortPairsDesc_eq_self (pairwise_keys_of_map hmfA hsorted)]
      exact hmfA
    · rw [hIc, sortPairsDesc_eq_self (pairwise_keys_of_map hmfI hsorted)]
      exact hmfI

/-- Language buckets of the window-reducer witness fixture. -/
def langBucketsW : List JValue :=
  [ .obj [ ( "key", .str "pt"), ( "doc_count", .num 3)],
    .obj [ ( "key", .str "fr"), ( "doc_count", .num 5)]]

/-- Window-reducer witness fixture: one in-window bucket for 2025 carrying
a doc_count, an issue metric and two language buckets. -/
def bucketW : JValue :=
  .obj [ ( "key", .str "2025"), ( "doc_count", .num 4),
         ( "issue", .obj [ ( "value", .num 2)]),
         ( "languages", .obj [ ( "buckets", .arr langBucketsW)])]

def rWindow : JValue :=
  .obj [ ( "aggregations", .obj [ ( "publication_year", .obj [ ( "buckets",
    .arr [bucketW])])])]

/-- Language record the fold computes for bucketW, in the unnormalized
form the additions of the fold leave (rational addition is not kernel
reducible, so the evaluation lemmas state the sums as sums). -/
def recW : List (String × ℚ) :=
  [ ( "pt", 0 + 3), ( "en", 0), ( "es", 0), ( "other", 0 + 5)]

theorem langBucketsW_fold_eval : foldLangRec initLangs langBucketsW = .ok recW := rfl

def outLangsW : List (String × List (String × ℚ)) :=
  [ ( "2026", initLangs), ( "2025", recW), ( "2024", initLangs)]

theorem rWindow_langs_eval :
    computeDocumentsLanguagesByYear rWindow 2026 3 = .ok outLangsW := rfl

theorem rWindow_articles_eval :
    computeNumberOfArticlesByYear rWindow 2026 3
      = .ok (.series [ ( "2026", .num 0), ( "2025", .num 4), ( "2024", .num 0)]) := rfl

theorem rWindow_issues_eval :
    computeNumberOfIssuesByYear rWindow 2026 3
      = .ok (.series [ ( "2026", .num 0), ( "2025", .num 2), ( "2024", .num 0)]) := rfl

/-- C1 witness: the amended statement at anchor year 2026, N = 3, on the
concrete single-bucket response. -/
theorem claim1_amended_witness :
    (outLangsW.map Prod.fst = windowKeys 2026 3) ∧
    (windowKeys 2026 3).length = 3 ∧
    ([ ( "2026", JValue.num 0), ( "2025", JValue.num 4), ( "2024", JValue.num 0)]
      = sortPairsDesc ((windowKeys 2026 3).map
          (fun k => (k, refVal getValArticles [bucketW] k (.num 0))))) ∧
    ([ ( "2026", JValue.num 0), ( "2025", JValue.num 2), ( "2024", JValue.num 0)]
      = sortPairsDesc ((windowKeys 2026 3).map
          (fun k => (k, refVal getValIssues [bucketW] k (.num 0))))) ∧
    (([ ( "2026", JValue.num 0), ( "2025", JValue.num 4),
        ( "2024", JValue.num 0)].map Prod.fst).Perm (windowKeys 2026 3)) ∧
    (([ ( "2026", JValue.num 0), ( "2025", JValue.num 2),
        ( "2024", JValue.num 0)].map Prod.fst).Perm (windowKeys 2026 3)) ∧
    List.Pairwise pairDescRel
      [ ( "2026", JValue.num 0), ( "2025", JValue.num 4), ( "2024", JValue.num 0)] ∧
    List.Pairwise pairDescRel
      [ ( "2026", JValue.num 0), ( "2025", JValue.num 2), ( "2024", JValue.num 0)] ∧
    (∀ k, k ∈ windowKeys 2026 3 → (∀ b ∈ [bucketW], keyIs b k = false) →
      ((k, initLangs) ∈ outLangsW ∧
       (k, JValue.num 0) ∈ [ ( "2026", JValue.num 0), ( "2025", JValue.num 4),
          ( "2024", JValue.num 0)] ∧
       (k, JValue.num 0) ∈ [ ( "2026", JValue.num 0), ( "2025", JValue.num 2),
          ( "2024", JValue.num 0)])) ∧
    (List.Pairwise (fun a b : String => b.data < a.data) (windowKeys 2026 3) →
      [ ( "2026", JValue.num 0), ( "2025", JValue.num 4),
        ( "2024", JValue.num 0)].map Prod.fst = windowKeys 2026 3 ∧
      [ ( "2026", JValue.num 0), ( "2025", JValue.num 2),
        ( "2024", JValue.num 0)].map Prod.fst = windowKeys 2026 3) :=
  claim1_amended 2026 3 rWindow [bucketW] _ _ _ (by decide) rfl
    rWindow_langs_eval rWindow_articles_eval rWindow_issues_eval

/-! ### Claim C2 -/

/-- C2 counterexample: the claim says the articles series takes each
window entry from the nested cardinality-over-id metric, but the reducer
stores the bucket doc_count: on a bucket carrying doc_count 7 and
id.value 3 the series entry is 7, not 3. -/
theorem claim2_counterexample :
    computeNumberOfArticlesByYear rTwoCounts 2026 1
      = .ok (.series [ ( "2026", .num 7)]) ∧
    (pyIndex bucketTwoCounts "id" >>= fun v => pyIndex v "value") = .ok (.num 3) ∧
    JValue.num 7 ≠ JValue.num 3 := by
  refine ⟨rfl, rfl, ?_⟩
  intro h
  injection h with h2
  exact absurd h2 (by decide)

/-- C2 (amended): for years = N > 0, on a window whose keys are descending
in string order, each count series equals the window keys mapped to the
value of the last bucket with that key: the articles reducer stores the
bucket get(doc_count, 0) (not the nested id cardinality), the issues
reducer stores the bucket get(issue, empty).get(value, 0) cardinality,
each falling back to 0 when the member is absent. -/
theorem claim2_amended (year : Int) (N : Nat) (r : JValue) (bs : List JValue)
    (outA outI : List (String × JValue))
    (hN : 0 < N)
    (hsorted : List.Pairwise (fun a b : String => b.data < a.data) (windowKeys year N))
    (hbs : bucketsPath r = .ok bs)
    (hA : computeNumberOfArticlesByYear r year N = .ok (.series outA))
    (hI : computeNumberOfIssuesByYear r year N = .ok (.series outI)) :
    outA = (windowKeys year N).map (fun k => (k, refVal getValArticles bs k (.num 0))) ∧
    outI = (windowKeys year N).map (fun k => (k, refVal getValIssues bs k (.num 0))) ∧
    (∀ (l₁ l₂ : List JValue) (b : JValue) (k : String) (v : JValue),
      bs = l₁ ++ b :: l₂ → keyIs b k = true → (∀ b2 ∈ l₂, keyIs b2 k = false) →
      pyGetAttr b "doc_count" (.num 0) = .ok v →
      refVal getValArticles bs k (.num 0) = v) ∧
    (∀ (l₁ l₂ : List JValue) (b : JValue) (k : String) (v : JValue),
      bs = l₁ ++ b :: l₂ → keyIs b k = true → (∀ b2 ∈ l₂, keyIs b2 k = false) →
      (pyGetAttr b "issue" (.obj []) >>= fun iv => pyGetAttr iv "value" (.num 0)) = .ok v →
      refVal getValIssues bs k (.num 0) = v) := by
  have hAc := computeNumberOfArticlesByYear_ok hN.ne' hbs hA
  have hIc := computeNumberOfIssuesByYear_ok hN.ne' hbs hI
  have hmfA : ((windowKeys year N).map
      (fun k => (k, refVal getValArticles bs k (JValue.num 0)))).map Prod.fst
      = windowKeys year N := by
    rw [List.map_map]
    exact List.map_id _
  have hmfI : ((windowKeys year N).map
      (fun k => (k, refVal getValIssues bs k (JValue.num 0)))).map Prod.fst
      = windowKeys year N := by
    rw [List.map_map]
    exact List.map_id _
  rw [sortPairsDesc_eq_self (pairwise_keys_of_map hmfA hsorted)] at hAc
  rw [sortPairsDesc_eq_self (pairwise_keys_of_map hmfI hsorted)] at hIc
  refine ⟨hAc, hIc, ?_, ?_⟩
  · intro l₁ l₂ b k v hsplit hkey hlast hv
    subst hsplit
    exact refVal_last_match getValArticles l₁ l₂ b k _ v hkey hv hlast
  · intro l₁ l₂ b k v hsplit hkey hlast hv
    subst hsplit
    exact refVal_last_match getValIssues l₁ l₂ b k _ v hkey hv hlast

/-- C2 witness: the amended statement at anchor year 2026, N = 3, on the
concrete single-bucket response. -/
theorem claim2_amended_witness :
    ([ ( "2026", JValue.num 0), ( "2025", JValue.num 4), ( "2024", JValue.num 0)]
      = (windowKeys 2026 3).map
          (fun k => (k, refVal getValArticles [bucketW] k (.num 0)))) ∧
    ([ ( "2026", JValue.num 0), ( "2025", JValue.num 2), ( "2024", JValue.num 0)]
      = (windowKeys 2026 3).map
          (fun k => (k, refVal getValIssues [bucketW] k (.num 0)))) ∧
    (∀ (l₁ l₂ : List JValue) (b : JValue) (k : String) (v : JValue),
      [bucketW] = l₁ ++ b :: l₂ → keyIs b k = true → (∀ b2 ∈ l₂, keyIs b2 k = false) →
      pyGetAttr b "doc_count" (.num 0) = .ok v →
      refVal getValArticles [bucketW] k (.num 0) = v) ∧
    (∀ (l₁ l₂ : List JValue) (b : JValue) (k : String) (v : JValue),
      [bucketW] = l₁ ++ b :: l₂ → keyIs b k = true → (∀ b2 ∈ l₂, keyIs b2 k = false) →
      (pyGetAttr b "issue" (.obj []) >>= fun iv => pyGetAttr iv "value" (.num 0)) = .ok v →
      refVal getValIssues [bucketW] k (.num 0) = v) :=
  claim2_amended 2026 3 rWindow [bucketW] _ _ (by decide) (by decide) rfl
    rWindow_articles_eval rWindow_issues_eval

/-! ### Claim C5 -/

/-- C5: for a window-year bucket of the response (the last one with that
key), the languages reducer overwrites that year entry with the record
whose pt, en and es slots are the summed doc_counts of the language
buckets keyed exactly pt, en and es, and whose other slot accumulates
every remaining language bucket (fr included); the record never has a top
level key other than pt, en, es, other. -/
theorem claim5_language_folding (year : Int) (N : Nat) (r : JValue)
    (bs l₁ l₂ : List JValue) (b : JValue) (s : String) (lbs : List JValue)
    (out : List (String × List (String × ℚ))) (rec : List (String × ℚ))
    (hbs : bucketsPath r = .ok bs)
    (hout : computeDocumentsLanguagesByYear r year N = .ok out)
    (hsplit : bs = l₁ ++ b :: l₂)
    (hkey : keyIs b s = true)
    (hlast : ∀ b2 ∈ l₂, keyIs b2 s = false)
    (hwin : s ∈ windowKeys year N)
    (hlb : extractLangBuckets b = .ok lbs)
    (hrec : foldLangRec initLangs lbs = .ok rec) :
    (s, rec) ∈ out ∧
    rec = [ ( "pt", sumSlot "pt" lbs), ( "en", sumSlot "en" lbs),
            ( "es", sumSlot "es" lbs), ( "other", sumSlot "other" lbs)] ∧
    rec.map Prod.fst = [ "pt", "en", "es", "other"] := by
  have hgv : getValLangs b = .ok rec := by
    unfold getValLangs
    rw [hlb, ok_bind]
    exact hrec
  have hcar := computeDocumentsLanguagesByYear_ok hbs hout
  have hrv : refVal getValLangs bs s initLangs = rec := by
    subst hsplit
    exact refVal_last_match getValLangs l₁ l₂ b s _ rec hkey hgv hlast
  have hrec4 := foldLangRec_ok lbs 0 0 0 0 rec hrec
  refine ⟨?_, ?_, ?_⟩
  · rw [hcar]
    exact List.mem_map.mpr ⟨s, hwin, by rw [hrv]⟩
  · simpa using hrec4
  · rw [hrec4]
    rfl

/-- C5 witness: the folding on the concrete bucket for 2025 with language
buckets pt 3 and fr 5 at anchor year 2026, N = 3. -/
theorem claim5_language_folding_witness :
    (( "2025", recW) ∈ outLangsW) ∧
    (recW
      = [ ( "pt", sumSlot "pt" langBucketsW), ( "en", sumSlot "en" langBucketsW),
          ( "es", sumSlot "es" langBucketsW), ( "other", sumSlot "other" langBucketsW)]) ∧
    (recW.map Prod.fst = [ "pt", "en", "es", "other"]) :=
  claim5_language_folding 2026 3 rWindow [bucketW] [] [] bucketW "2025" langBucketsW
    outLangsW recW rfl rWindow_langs_eval rfl rfl (by simp) (by decide) rfl
    langBucketsW_fold_eval

/-! ### Claim C6 -/

/-- One access-year bucket with all five sums equal to v. -/
def accessBucket (k : String) (v : ℚ) : JValue :=
  .obj [ ( "key", .str k),
         ( "access_html", .obj [ ( "value", .num v)]),
         ( "access_abstract", .obj [ ( "value", .num v)]),
         ( "access_pdf", .obj [ ( "value", .num v)]),
         ( "access_epdf", .obj [ ( "value", .num v)]),
         ( "access_total", .obj [ ( "value", .num v)])]

/-- One publication-year bucket over the given access-year buckets. -/
def pubBucket (k : String) (ays : List JValue) : JValue :=
  .obj [ ( "key", .str k), ( "access_year", .obj [ ( "buckets", .arr ays)])]

/-- Response repeating the same publication-year bucket twice. -/
def rDupBuckets : JValue :=
  .obj [ ( "aggregations", .obj [ ( "publication_year", .obj [ ( "buckets", .arr
    [ pubBucket "2020" [accessBucket "2021" 1],
      pubBucket "2020" [accessBucket "2021" 1]])])])]

def rowDup : Row := ( "2020", "2021", 1, 1, 1, 1, 1)

/-- C6 counterexample: the claim promises exactly one tuple per
(publication_year, access_year) bucket key pair and a strictly ascending
result, but a response repeating a bucket yields two identical tuples and
a sort that is not strictly ascending. -/
theorem claim6_counterexample :
    computeAccessLifetime rDupBuckets = .ok [rowDup, rowDup] ∧
    ([rowDup, rowDup].length ≠ 1) ∧
    ¬ List.Pairwise (fun a b : Row => pairKey a < pairKey b) [rowDup, rowDup] :=
  ⟨rfl, by decide, by decide⟩

/-- C6 (amended): the lifetime reducer returns a permutation of the
flattened rows (one row per access-year bucket occurrence under each
publication-year bucket occurrence, with int() converted metric values),
sorted ascending under the full tuple order; whenever the
(publication_year, access_year) key pairs of the rows are distinct (as
they are in a terms aggregation) the result is strictly ascending by
(publication_year, access_year). -/
theorem claim6_amended (r : JValue) (rows out : List Row)
    (hrows : lifetimeRows r = .ok rows)
    (hout : computeAccessLifetime r = .ok out) :
    out.Perm rows ∧
    List.Pairwise rowle out ∧
    ((rows.map pairKey).Nodup →
      List.Pairwise (fun a b : Row => pairKey a < pairKey b) out) := by
  have hsort : out = sortRows rows := by
    unfold computeAccessLifetime at hout
    rw [hrows, ok_bind] at hout
    have := hout
    simp only [Except.ok.injEq] at this
    exact this.symm
  subst hsort
  exact ⟨sortRows_perm rows, sortRows_pairwise rows, fun hnd => sortRows_strict hnd⟩

/-- Interleaved-years lifetime fixture. -/
def rLifetime : JValue :=
  .obj [ ( "aggregations", .obj [ ( "publication_year", .obj [ ( "buckets", .arr
    [ pubBucket "2021" [accessBucket "2022" 5],
      pubBucket "2019" [accessBucket "2020" 7, accessBucket "2019" 2]])])])]

theorem rLifetime_rows_eval :
    lifetimeRows rLifetime
      = .ok [ ( "2021", "2022", 5, 5, 5, 5, 5), ( "2019", "2020", 7, 7, 7, 7, 7),
              ( "2019", "2019", 2, 2, 2, 2, 2)] := rfl

theorem rLifetime_sorted_eval :
    computeAccessLifetime rLifetime
      = .ok [ ( "2019", "2019", 2, 2, 2, 2, 2), ( "2019", "2020", 7, 7, 7, 7, 7),
              ( "2021", "2022", 5, 5, 5, 5, 5)] := rfl

/-- C6 witness: the amended statement on the concrete interleaved
response, whose three rows are re-sorted ascending. -/
theorem claim6_amended_witness :
    ([ ( "2019", "2019", 2, 2, 2, 2, 2), ( "2019", "2020", 7, 7, 7, 7, 7),
       ( "2021", "2022", 5, 5, 5, 5, 5)] : List Row).Perm
      [ ( "2021", "2022", 5, 5, 5, 5, 5), ( "2019", "2020", 7, 7, 7, 7, 7),
        ( "2019", "2019", 2, 2, 2, 2, 2)] ∧
    List.Pairwise rowle
      [ ( "2019", "2019", 2, 2, 2, 2, 2), ( "2019", "2020", 7, 7, 7, 7, 7),
        ( "2021", "2022", 5, 5, 5, 5, 5)] ∧
    ((([ ( "2021", "2022", 5, 5, 5, 5, 5), ( "2019", "2020", 7, 7, 7, 7, 7),
         ( "2019", "2019", 2, 2, 2, 2, 2)] : List Row).map pairKey).Nodup →
      List.Pairwise (fun a b : Row => pairKey a < pairKey b)
        [ ( "2019", "2019", 2, 2, 2, 2, 2), ( "2019", "2020", 7, 7, 7, 7, 7),
          ( "2021", "2022", 5, 5, 5, 5, 5)]) :=
  claim6_amended rLifetime _ _ rLifetime_rows_eval rLifetime_sorted_eval

end Clients
